import Mathlib

/-!
Verification of the job-orchestration services of the custom-atomspace-builder
repository: `HugeGraphService` (src/app/services/hugegraph_service.py) and
`AnnotationService` (src/app/services/annotation_service.py), shallowly embedded
in Lean 4.

Python dictionaries with a known key set become structures; a key that may be
absent becomes an `Option` field.  Python `list.remove`, which deletes the first
occurrence and raises `ValueError` when the element is absent, is embedded as an
`Option`-returning function (`none` models the exception).  Filesystem and
subprocess effects in `process_data` are embedded as explicit state passing: the
job's output directory is an `Option (List String)` (`none` = the directory does
not exist, `some fs` = it exists and holds the files `fs`), the external loader
subprocess is an oracle value describing its exit code, captured output and the
files it writes, and the HTTP client of the notifier is an oracle describing the
outcome of the single POST.
-/

namespace AtomspaceBuilder

/-! ## Schema data model

`schema_data : Dict[str, Any]` holds `vertex_labels` and `edge_labels`, lists of
descriptor dicts.  A descriptor's `properties` / `nullable_keys` keys may be
absent (`vertex.get("properties", [])`), hence `Option (List String)`. -/

/-- A vertex- or edge-label descriptor of the input schema. -/
structure LabelDesc where
  name : String
  properties : Option (List String)
  nullable_keys : Option (List String)
deriving DecidableEq, Repr

/-- The schema dictionary: lists of vertex- and edge-label descriptors
(a missing key behaves as the empty list in `_remove_id_property`). -/
structure SchemaData where
  vertex_labels : List LabelDesc
  edge_labels : List LabelDesc
deriving DecidableEq, Repr

/-- Python `list.remove(x)`: delete the first occurrence of `x`; `none` models
the `ValueError` raised when `x` is absent. -/
def pyListRemove (x : String) : List String → Option (List String)
  | [] => none
  | a :: as => if a = x then some as else (pyListRemove x as).map (a :: ·)

/-- One guarded removal step of `_remove_id_property`:
`if "id" in d.get(key, []): d[key].remove("id")`.  The outer `Option` is
failure (an uncaught `ValueError`); the inner `Option` is the key's presence. -/
def removeIdFromKey : Option (List String) → Option (Option (List String))
  | none => some none
  | some l => if "id" ∈ l then (pyListRemove "id" l).map some else some (some l)

/-- The two guarded removals `_remove_id_property` performs on one descriptor. -/
def removeIdFromDesc (d : LabelDesc) : Option LabelDesc := do
  let p ← removeIdFromKey d.properties
  let nk ← removeIdFromKey d.nullable_keys
  pure ⟨d.name, p, nk⟩

/-- `HugeGraphService._remove_id_property` (value semantics): strips `"id"`
from every descriptor's `properties` and `nullable_keys`; `none` models an
uncaught `ValueError` from `list.remove`. -/
def remove_id_property (s : SchemaData) : Option SchemaData := do
  let vs ← s.vertex_labels.mapM removeIdFromDesc
  let es ← s.edge_labels.mapM removeIdFromDesc
  pure ⟨vs, es⟩

/-- Total description of the removal on one list: erase the first `"id"` if
present (the guard makes the `else` branch a no-op, and `List.erase` of an
absent element is the identity, so this is plain first-occurrence erasure). -/
def stripList (l : List String) : List String :=
  if "id" ∈ l then l.erase "id" else l

/-- Total description of the removal on one descriptor. -/
def stripDesc (d : LabelDesc) : LabelDesc :=
  ⟨d.name, d.properties.map stripList, d.nullable_keys.map stripList⟩

/-- Total description of `_remove_id_property` on a whole schema. -/
def removeIdTotal (s : SchemaData) : SchemaData :=
  ⟨s.vertex_labels.map stripDesc, s.edge_labels.map stripDesc⟩

/-- In-place semantics of `_remove_id_property`: `list.remove` mutates the
caller's lists and the function returns the very dict object it received, so
after the call the caller's binding and the returned value are the same,
stripped, schema.  Embedded as the pair (caller's object after the call,
returned value). -/
def remove_id_property_inplace (s : SchemaData) : Option (SchemaData × SchemaData) :=
  (remove_id_property s).map (fun s' => (s', s'))

/-- The schema has no `"id"` entry in any properties or nullable-keys list. -/
def schemaHasNoId (s : SchemaData) : Prop :=
  ∀ d ∈ s.vertex_labels ++ s.edge_labels,
    "id" ∉ d.properties.getD [] ∧ "id" ∉ d.nullable_keys.getD []

instance (s : SchemaData) : Decidable (schemaHasNoId s) := by
  unfold schemaHasNoId
  infer_instance

/-! ## Settings and writer types

Modelled from the spec: the configuration module (`app/config.py`) and the
models package (`app/models`) are not under src/; §6 of the spec lists the
configuration surface (loader executable path, target host/port/graph name,
base output directory, annotation-service URL and timeout, connection-config
block for the graph-database writer), and the glossary describes the
writer-type enumeration whose graph-database member the code compares against
the string `"neo4j"`. -/

/-- Modelled from the spec: the settings object (`app/config.py` is not under
src/).  Fields follow §6 "Configuration surface"; `neo4j_config` is the
connection-config block embedded into metadata for the graph-database
writer. -/
structure Settings where
  base_output_dir : String
  hugegraph_loader_path : String
  hugegraph_graph : String
  hugegraph_host : String
  hugegraph_port : String
  neo4j_config : String
  annotation_service_url : String
  annotation_service_timeout : Nat
deriving DecidableEq, Repr

/-- Modelled from the spec: `WriterType.NEO4J` of `app/models/enums.py` (not
under src/) is a string-valued enumeration member; both services compare the
writer type against the string value `"neo4j"`. -/
def WriterType.NEO4J : String := "neo4j"

/-- Modelled from the spec: the default writer type `WriterType.METTA` of
`app/models/enums.py` (not under src/), a generic (MeTTa) format selector. -/
def WriterType.METTA : String := "metta"

/-! ## Job runner: `HugeGraphService.process_data`

The filesystem state the claims speak about is the job's output directory:
`none` = the directory does not exist, `some fs` = it exists with files `fs`.
The external loader subprocess is an oracle `LoaderResult`; running it appends
the files it writes to the output directory and yields its exit code and
captured output.  `shutil.rmtree(..., ignore_errors=True)` is modelled as
removing the directory. -/

/-- `os.path.join` for the relative second components the service uses. -/
def osPathJoin (a b : String) : String := a ++ "/" ++ b

/-- `HugeGraphService._get_job_output_dir`. -/
def get_job_output_dir (st : Settings) (job_id : String) : String :=
  osPathJoin st.base_output_dir job_id

/-- The schema file path produced by `_create_schema_file`. -/
def schema_file_path (tmpdir job_id : String) : String :=
  osPathJoin tmpdir ("schema-" ++ job_id ++ ".groovy")

/-- The config file path produced by `_create_config_file`. -/
def config_file_path (tmpdir job_id : String) : String :=
  osPathJoin tmpdir ("struct-" ++ job_id ++ ".json")

/-- The argv built by `HugeGraphService._run_hugegraph_loader`. -/
def run_hugegraph_loader_cmd (st : Settings)
    (config_path schema_path output_dir job_id writer_type graph_type : String) :
    List String :=
  ["sh", st.hugegraph_loader_path,
   "-g", st.hugegraph_graph,
   "-f", config_path,
   "-h", st.hugegraph_host,
   "-p", st.hugegraph_port,
   "--clear-all-data", "true",
   "-o", output_dir,
   "-w", writer_type,
   "-gt", graph_type,
   "--job-id", job_id]
  ++ (if schema_path ≠ "" then ["-s", schema_path] else [])

/-- Outcome of the external loader subprocess (`subprocess.CompletedProcess`
plus the files the loader wrote into the output directory). -/
structure LoaderResult where
  returncode : Int
  stdout : String
  stderr : String
  files : List String
deriving DecidableEq, Repr

/-- The `job_metadata.json` document written by `_save_job_metadata`. -/
structure JobMetadata where
  job_id : String
  writer_type : String
  graph_type : String
  created_at : String
  neo4j_config : Option String
deriving DecidableEq, Repr

/-- The `HugeGraphLoadResponse` returned on success (`app/models/schemas.py`
is not under src/; the fields are exactly those `process_data` fills in). -/
structure HugeGraphLoadResponse where
  job_id : String
  status : String
  message : String
  output_files : List String
  output_dir : String
  schema_path : String
  writer_type : String
deriving DecidableEq, Repr

/-- Everything observable about one `process_data` run: the returned value or
raised error message, the final state of the job's output directory, the argv
of every loader invocation, and the metadata document written (if any). -/
structure ProcessOutcome where
  result : Except String HugeGraphLoadResponse
  finalDir : Option (List String)
  loaderCalls : List (List String)
  savedMetadata : Option JobMetadata
deriving Repr

/-- Writing a file into a directory listing: `open(path, "w")` creates the
name once (overwriting keeps a single directory entry). -/
def fsWrite (name : String) (files : List String) : List String :=
  if name ∈ files then files else files ++ [name]

/-- `HugeGraphService.process_data`, embedded with explicit state.  Inputs:
settings, the generated job id and temporary directory, the schema, writer
and graph type, the `created_at` timestamp string, the initial state of the
job's output directory (normally `none`: it must not pre-exist), and the
loader oracle.  The staging helpers (`copy_files_to_temp_dir`,
`json_to_groovy`, `update_file_paths_in_config`, from `app/utils`, not under
src/) only shape file contents the claims never inspect and are elided.  Any
exception reaches the outer `except`, which removes the output directory and
re-raises. -/
def process_data (st : Settings) (job_id tmpdir : String)
    (schema_data : SchemaData) (writer_type graph_type created_at : String)
    (initDir : Option (List String)) (loader : LoaderResult) : ProcessOutcome :=
  match remove_id_property schema_data with
  | none =>
    { result := Except.error "ValueError",
      finalDir := none, loaderCalls := [], savedMetadata := none }
  | some _stripped =>
    let output_dir := get_job_output_dir st job_id
    let dirFiles := initDir.getD []
    let schema_path := schema_file_path tmpdir job_id
    let config_path := config_file_path tmpdir job_id
    let cmd := run_hugegraph_loader_cmd st config_path schema_path output_dir
      job_id writer_type graph_type
    let afterLoader := loader.files.foldl (fun fs f => fsWrite f fs) dirFiles
    if loader.returncode ≠ 0 then
      { result := Except.error ("HugeGraph loader failed: " ++ loader.stderr),
        finalDir := none, loaderCalls := [cmd], savedMetadata := none }
    else
      let md : JobMetadata :=
        { job_id := job_id, writer_type := writer_type, graph_type := graph_type,
          created_at := created_at,
          neo4j_config :=
            if writer_type = WriterType.NEO4J then some st.neo4j_config else none }
      let afterMeta := fsWrite "job_metadata.json" (fsWrite "schema.json" afterLoader)
      let output_files := afterMeta
      if output_files.isEmpty then
        { result := Except.error "No output files generated",
          finalDir := none, loaderCalls := [cmd], savedMetadata := some md }
      else
        { result := Except.ok
            { job_id := job_id, status := "success",
              message := "Graph generated successfully using " ++ writer_type
                ++ " writer",
              output_files := output_files,
              output_dir := output_dir,
              schema_path := osPathJoin output_dir "schema.json",
              writer_type := writer_type },
          finalDir := some afterMeta, loaderCalls := [cmd],
          savedMetadata := some md }

/-! ## Notifier: `AnnotationService.notify_annotation_service`

The single `httpx` POST is an oracle `HttpOutcome`: either a response with a
status code and body text, a timeout (`httpx.TimeoutException`), or any other
request exception.  The `raise RuntimeError` for a non-200 status sits inside
the `try`, so the generic `except Exception` re-wraps its message before
re-raising. -/

/-- Outcome of the single HTTP POST attempt. -/
inductive HttpOutcome where
  | response (status : Nat) (text : String)
  | timeout (msg : String)
  | requestError (msg : String)
deriving DecidableEq, Repr

/-- One recorded POST request: destination, JSON body
`{folder_id, type}`, and the timeout bound passed to the client. -/
structure PostRequest where
  url : String
  folder_id : String
  type_field : String
  timeout : Nat
deriving DecidableEq, Repr

deriving instance DecidableEq for Except

/-- Observable behaviour of one `notify_annotation_service` call: the returned
value (`Except.ok none` = the Python `return None`) or the raised
`RuntimeError` message, and the requests that were sent. -/
structure NotifyOutcome where
  result : Except String (Option String)
  requests : List PostRequest
deriving DecidableEq, Repr

/-- `AnnotationService.notify_annotation_service`, embedded with the HTTP
client as an oracle.  `service_url = ""` models a falsy
`settings.annotation_service_url`. -/
def notify_annotation_service (service_url : String) (timeout : Nat)
    (job_id writer_type : String) (oracle : HttpOutcome) : NotifyOutcome :=
  if service_url = "" then
    { result := Except.ok none, requests := [] }
  else
    let wt := if writer_type = "neo4j" then "cypher" else writer_type
    let req : PostRequest :=
      { url := service_url, folder_id := job_id, type_field := wt,
        timeout := timeout }
    match oracle with
    | HttpOutcome.response status text =>
      if status ≠ 200 then
        { result := Except.error
            ("Failed to connect to annotation service: Annotation service returned "
              ++ toString status ++ ": " ++ text),
          requests := [req] }
      else
        { result := Except.ok none, requests := [req] }
    | HttpOutcome.timeout _ =>
      { result := Except.error "Timeout connecting to annotation service",
        requests := [req] }
    | HttpOutcome.requestError m =>
      { result := Except.error ("Failed to connect to annotation service: " ++ m),
        requests := [req] }

theorem pyListRemove_eq (x : String) (l : List String) :
    pyListRemove x l = if x ∈ l then some (l.erase x) else none := by
  induction l with
  | nil => simp [pyListRemove]
  | cons a as ih =>
    by_cases hax : a = x
    · subst hax
      simp [pyListRemove, List.erase_cons_head]
    · have hba : ¬ (a == x) := by simpa using hax
      simp only [pyListRemove, if_neg hax, ih, List.erase_cons_tail hba,
        List.mem_cons]
      by_cases hm : x ∈ as
      · simp [hm, hax, Ne.symm hax]
      · simp [hm, hax, Ne.symm hax]

theorem removeIdFromKey_eq (o : Option (List String)) :
    removeIdFromKey o = some (o.map stripList) := by
  cases o with
  | none => rfl
  | some l =>
    by_cases h : "id" ∈ l
    · simp [removeIdFromKey, h, pyListRemove_eq, stripList]
    · simp [removeIdFromKey, h, stripList]

theorem removeIdFromDesc_eq (d : LabelDesc) :
    removeIdFromDesc d = some (stripDesc d) := by
  simp [removeIdFromDesc, removeIdFromKey_eq, stripDesc, bind, Option.bind]

theorem mapM_removeIdFromDesc (ds : List LabelDesc) :
    ds.mapM removeIdFromDesc = some (ds.map stripDesc) := by
  induction ds with
  | nil => rfl
  | cons d ds ih =>
    rw [List.mapM_cons, removeIdFromDesc_eq, ih]
    rfl

/-- `_remove_id_property` never raises: it always returns the stripped schema. -/
theorem remove_id_property_eq (s : SchemaData) :
    remove_id_property s = some (removeIdTotal s) := by
  simp only [remove_id_property, mapM_removeIdFromDesc, removeIdTotal]
  rfl

theorem stripList_eq_erase (l : List String) : stripList l = l.erase "id" := by
  by_cases h : "id" ∈ l
  · simp [stripList, h]
  · simp [stripList, h, List.erase_of_not_mem h]

theorem stripList_of_not_mem {l : List String} (h : "id" ∉ l) : stripList l = l := by
  rw [stripList_eq_erase, List.erase_of_not_mem h]

theorem not_mem_stripList_of_nodup {l : List String} (h : l.Nodup) :
    "id" ∉ stripList l := by
  rw [stripList_eq_erase]
  exact h.not_mem_erase

theorem stripList_eq_filter_of_nodup {l : List String} (h : l.Nodup) :
    stripList l = l.filter (· != "id") := by
  rw [stripList_eq_erase, h.erase_eq_filter]

theorem count_stripList_of_mem {l : List String} (_h : "id" ∈ l) :
    (stripList l).count "id" = l.count "id" - 1 := by
  rw [stripList_eq_erase, List.count_erase_self]

theorem mem_stripList_of_two_le_count {l : List String}
    (h : 2 ≤ l.count "id") : "id" ∈ stripList l := by
  have hm : "id" ∈ l := List.one_le_count_iff.mp (le_trans (by norm_num) h)
  have : 1 ≤ (stripList l).count "id" := by
    rw [count_stripList_of_mem hm]
    omega
  exact List.one_le_count_iff.mp this

theorem stripList_idem_of_count_le_one {l : List String}
    (h : l.count "id" ≤ 1) : stripList (stripList l) = stripList l := by
  by_cases hm : "id" ∈ l
  · have : (stripList l).count "id" = 0 := by
      rw [count_stripList_of_mem hm]
      omega
    have hnm : "id" ∉ stripList l := by
      intro hc
      have := List.one_le_count_iff.mpr hc
      omega
    exact stripList_of_not_mem hnm
  · rw [stripList_of_not_mem hm, stripList_of_not_mem hm]

theorem stripDesc_eq_self_of_no_id {d : LabelDesc}
    (hp : "id" ∉ d.properties.getD []) (hn : "id" ∉ d.nullable_keys.getD []) :
    stripDesc d = d := by
  obtain ⟨n, p, nk⟩ := d
  cases p with
  | none =>
    cases nk with
    | none => rfl
    | some l => simp_all [stripDesc, stripList_of_not_mem]
  | some l =>
    cases nk with
    | none => simp_all [stripDesc, stripList_of_not_mem]
    | some l' => simp_all [stripDesc, stripList_of_not_mem]

theorem map_stripDesc_eq_self {l : List LabelDesc}
    (hl : ∀ d ∈ l, stripDesc d = d) : l.map stripDesc = l := by
  have h1 : l.map stripDesc = l.map id := List.map_congr_left (fun a ha => hl a ha)
  rw [h1, List.map_id]

theorem removeIdTotal_eq_self_of_no_id {s : SchemaData} (h : schemaHasNoId s) :
    removeIdTotal s = s := by
  obtain ⟨vs, es⟩ := s
  unfold removeIdTotal
  congr 1
  · exact map_stripDesc_eq_self fun d hd =>
      stripDesc_eq_self_of_no_id (h d (List.mem_append_left _ hd)).1
        (h d (List.mem_append_left _ hd)).2
  · exact map_stripDesc_eq_self fun d hd =>
      stripDesc_eq_self_of_no_id (h d (List.mem_append_right _ hd)).1
        (h d (List.mem_append_right _ hd)).2

theorem stripDesc_eq_filter_of_nodup {d : LabelDesc}
    (h1 : (d.properties.getD []).Nodup) (h2 : (d.nullable_keys.getD []).Nodup) :
    stripDesc d = ⟨d.name, d.properties.map (List.filter (· != "id")),
      d.nullable_keys.map (List.filter (· != "id"))⟩ := by
  obtain ⟨n, p, nk⟩ := d
  simp only [stripDesc]
  cases p <;> cases nk <;>
    simp_all [Option.getD, stripList_eq_filter_of_nodup]

theorem stripDesc_no_id_of_nodup {d : LabelDesc}
    (h1 : (d.properties.getD []).Nodup) (h2 : (d.nullable_keys.getD []).Nodup) :
    "id" ∉ (stripDesc d).properties.getD [] ∧
    "id" ∉ (stripDesc d).nullable_keys.getD [] := by
  obtain ⟨n, p, nk⟩ := d
  cases p <;> cases nk <;>
    simp_all [stripDesc, Option.getD, not_mem_stripList_of_nodup]

theorem stripDesc_idem_of_count_le_one {d : LabelDesc}
    (h1 : (d.properties.getD []).count "id" ≤ 1)
    (h2 : (d.nullable_keys.getD []).count "id" ≤ 1) :
    stripDesc (stripDesc d) = stripDesc d := by
  obtain ⟨n, p, nk⟩ := d
  cases p <;> cases nk <;>
    simp_all [stripDesc, Option.getD, stripList_idem_of_count_le_one]

/-- C4: for every schema whose descriptors have duplicate-free `properties`
and `nullable_keys` lists, identifier stripping never raises, `"id"` appears
in no resulting `properties` or `nullable_keys` list, and every other entry is
preserved in its original order (each list becomes its filter dropping
`"id"`). -/
theorem C4_strip_removes_id_and_preserves_order (s : SchemaData)
    (hnd : ∀ d ∈ s.vertex_labels ++ s.edge_labels,
      (d.properties.getD []).Nodup ∧ (d.nullable_keys.getD []).Nodup) :
    remove_id_property s = some (removeIdTotal s) ∧
    (removeIdTotal s).vertex_labels
      = s.vertex_labels.map (fun d =>
          ⟨d.name, d.properties.map (List.filter (· != "id")),
            d.nullable_keys.map (List.filter (· != "id"))⟩) ∧
    (removeIdTotal s).edge_labels
      = s.edge_labels.map (fun d =>
          ⟨d.name, d.properties.map (List.filter (· != "id")),
            d.nullable_keys.map (List.filter (· != "id"))⟩) ∧
    ∀ d ∈ (removeIdTotal s).vertex_labels ++ (removeIdTotal s).edge_labels,
      "id" ∉ d.properties.getD [] ∧ "id" ∉ d.nullable_keys.getD [] := by
  refine ⟨remove_id_property_eq s, ?_, ?_, ?_⟩
  · apply List.map_congr_left
    intro d hd
    exact stripDesc_eq_filter_of_nodup
      (hnd d (List.mem_append_left _ hd)).1 (hnd d (List.mem_append_left _ hd)).2
  · apply List.map_congr_left
    intro d hd
    exact stripDesc_eq_filter_of_nodup
      (hnd d (List.mem_append_right _ hd)).1 (hnd d (List.mem_append_right _ hd)).2
  · intro d' hd'
    rw [removeIdTotal] at hd'
    simp only [← List.map_append] at hd'
    obtain ⟨d, hd, rfl⟩ := List.mem_map.mp hd'
    exact stripDesc_no_id_of_nodup (hnd d hd).1 (hnd d hd).2

/-- C4 witness: the spec's own scenario, stripping
`{vertex_labels: [{name: Person, properties: [id, name], nullable_keys: [id]}]}`
yields `properties: [name]`, `nullable_keys: []`. -/
theorem C4_strip_removes_id_and_preserves_order_witness :
    remove_id_property ⟨[⟨"Person", some ["id", "name"], some ["id"]⟩], []⟩
      = some ⟨[⟨"Person", some ["name"], some []⟩], []⟩ := by
  have h := (C4_strip_removes_id_and_preserves_order
    ⟨[⟨"Person", some ["id", "name"], some ["id"]⟩], []⟩ (by decide)).1
  rw [h]
  decide

/-- C5 counterexample: `_remove_id_property` mutates the caller's schema
object in place (`list.remove`), so after the call the caller's object is the
stripped schema, not the original: the claim "the schema object supplied by
the caller is unchanged" fails on
`{vertex_labels: [{name: Person, properties: [id, name], nullable_keys: [id]}]}`. -/
theorem C5_counterexample :
    ¬ ((remove_id_property_inplace
          ⟨[⟨"Person", some ["id", "name"], some ["id"]⟩], []⟩).map Prod.fst
        = some ⟨[⟨"Person", some ["id", "name"], some ["id"]⟩], []⟩) := by
  decide

/-- C5 amended: the transformation is deterministic and functional on values
— the call always yields the stripped schema — but it mutates the caller's
schema object in place: after the call the caller's object equals the
stripped schema (the same object the function returns), and it equals the
original input only when no `properties` or `nullable_keys` list contains
`"id"`. -/
theorem C5_strip_mutates_caller_to_stripped (s : SchemaData) :
    remove_id_property_inplace s = some (removeIdTotal s, removeIdTotal s) ∧
    (schemaHasNoId s → remove_id_property_inplace s = some (s, s)) := by
  constructor
  · simp [remove_id_property_inplace, remove_id_property_eq]
  · intro h
    simp [remove_id_property_inplace, remove_id_property_eq,
      removeIdTotal_eq_self_of_no_id h]

/-- C5 witness: on a schema without `"id"` the caller's object and the
returned value are both unchanged. -/
theorem C5_strip_mutates_caller_to_stripped_witness :
    remove_id_property_inplace ⟨[⟨"Person", some ["name"], some []⟩], []⟩
      = some (⟨[⟨"Person", some ["name"], some []⟩], []⟩,
              ⟨[⟨"Person", some ["name"], some []⟩], []⟩) :=
  (C5_strip_mutates_caller_to_stripped _).2 (by decide)

/-- C9 counterexample: stripping is not idempotent on every schema — with
`properties = ["id", "id"]` the first pass removes only the first occurrence
and a second pass removes the second, so applying the operation to its own
output differs from applying it once. -/
theorem C9_counterexample :
    ¬ ((remove_id_property ⟨[⟨"V", some ["id", "id"], some []⟩], []⟩).bind
          remove_id_property
        = remove_id_property ⟨[⟨"V", some ["id", "id"], some []⟩], []⟩) := by
  decide

/-- C9 amended: for every schema in which no `properties` or `nullable_keys`
list contains `"id"` more than once, stripping is idempotent; and for every
schema containing no `"id"` entry at all, the output equals the input. -/
theorem C9_strip_idempotent_amended (s : SchemaData)
    (h : ∀ d ∈ s.vertex_labels ++ s.edge_labels,
      (d.properties.getD []).count "id" ≤ 1 ∧
      (d.nullable_keys.getD []).count "id" ≤ 1) :
    (remove_id_property s).bind remove_id_property = remove_id_property s ∧
    (schemaHasNoId s → remove_id_property s = some s) := by
  have hidem : removeIdTotal (removeIdTotal s) = removeIdTotal s := by
    unfold removeIdTotal
    simp only [List.map_map]
    congr 1
    · apply List.map_congr_left
      intro d hd
      exact stripDesc_idem_of_count_le_one
        (h d (List.mem_append_left _ hd)).1 (h d (List.mem_append_left _ hd)).2
    · apply List.map_congr_left
      intro d hd
      exact stripDesc_idem_of_count_le_one
        (h d (List.mem_append_right _ hd)).1 (h d (List.mem_append_right _ hd)).2
  constructor
  · rw [remove_id_property_eq s]
    show remove_id_property (removeIdTotal s) = some (removeIdTotal s)
    rw [remove_id_property_eq, hidem]
  · intro hno
    rw [remove_id_property_eq, removeIdTotal_eq_self_of_no_id hno]

/-- C9 witness: idempotence at a schema whose lists mention `"id"` once. -/
theorem C9_strip_idempotent_amended_witness :
    (remove_id_property ⟨[⟨"P", some ["id", "name"], some ["id"]⟩], []⟩).bind
        remove_id_property
      = remove_id_property ⟨[⟨"P", some ["id", "name"], some ["id"]⟩], []⟩ :=
  (C9_strip_idempotent_amended _ (by decide)).1

/-- C10: when a descriptor lists `"id"` more than once in its `properties`
(or `nullable_keys`) list, stripping removes only the first occurrence —
the count drops by exactly one — so at least one `"id"` entry survives in
the output. -/
theorem C10_duplicate_id_survives (s : SchemaData)
    (h : ∃ d ∈ s.vertex_labels ++ s.edge_labels,
      2 ≤ (d.properties.getD []).count "id" ∨
      2 ≤ (d.nullable_keys.getD []).count "id") :
    remove_id_property s = some (removeIdTotal s) ∧
    ∃ d ∈ s.vertex_labels ++ s.edge_labels,
      stripDesc d ∈ (removeIdTotal s).vertex_labels ++ (removeIdTotal s).edge_labels ∧
      ((2 ≤ (d.properties.getD []).count "id" ∧
          ((stripDesc d).properties.getD []).count "id"
            = (d.properties.getD []).count "id" - 1 ∧
          "id" ∈ (stripDesc d).properties.getD []) ∨
       (2 ≤ (d.nullable_keys.getD []).count "id" ∧
          ((stripDesc d).nullable_keys.getD []).count "id"
            = (d.nullable_keys.getD []).count "id" - 1 ∧
          "id" ∈ (stripDesc d).nullable_keys.getD [])) := by
  obtain ⟨d, hd, hc⟩ := h
  refine ⟨remove_id_property_eq s, d, hd, ?_, ?_⟩
  · rw [removeIdTotal]
    simp only [← List.map_append]
    exact List.mem_map.mpr ⟨d, hd, rfl⟩
  · rcases hc with hc | hc
    · left
      obtain ⟨l, hp⟩ : ∃ l, d.properties = some l := by
        cases hpp : d.properties with
        | none => rw [hpp] at hc; simp at hc
        | some l => exact ⟨l, rfl⟩
      have hgd : d.properties.getD [] = l := by rw [hp]; rfl
      rw [hgd] at hc
      have hmem : "id" ∈ l :=
        List.one_le_count_iff.mp (le_trans (by norm_num) hc)
      have hsd : (stripDesc d).properties.getD [] = stripList l := by
        simp [stripDesc, hp]
      rw [hgd, hsd]
      exact ⟨hc, count_stripList_of_mem hmem,
        mem_stripList_of_two_le_count hc⟩
    · right
      obtain ⟨l, hp⟩ : ∃ l, d.nullable_keys = some l := by
        cases hpp : d.nullable_keys with
        | none => rw [hpp] at hc; simp at hc
        | some l => exact ⟨l, rfl⟩
      have hgd : d.nullable_keys.getD [] = l := by rw [hp]; rfl
      rw [hgd] at hc
      have hmem : "id" ∈ l :=
        List.one_le_count_iff.mp (le_trans (by norm_num) hc)
      have hsd : (stripDesc d).nullable_keys.getD [] = stripList l := by
        simp [stripDesc, hp]
      rw [hgd, hsd]
      exact ⟨hc, count_stripList_of_mem hmem,
        mem_stripList_of_two_le_count hc⟩

/-- C10 witness: with `properties = ["id", "id"]` one `"id"` survives
stripping. -/
theorem C10_duplicate_id_survives_witness :
    remove_id_property ⟨[⟨"V", some ["id", "id"], none⟩], []⟩
      = some (removeIdTotal ⟨[⟨"V", some ["id", "id"], none⟩], []⟩) ∧
    "id" ∈ (stripDesc ⟨"V", some ["id", "id"], none⟩).properties.getD [] :=
  ⟨(C10_duplicate_id_survives _ ⟨⟨"V", some ["id", "id"], none⟩,
      by decide, by decide⟩).1, by decide⟩

theorem osPathJoin_ne_empty (a b : String) : osPathJoin a b ≠ "" := by
  unfold osPathJoin
  intro h
  have hl := congrArg String.length h
  simp [String.length_append] at hl
  exact absurd hl.1.2 (by decide)

theorem schema_file_path_ne_empty (tmpdir job_id : String) :
    schema_file_path tmpdir job_id ≠ "" :=
  osPathJoin_ne_empty _ _

/-- C1: whenever the external loader exits non-zero, `process_data` raises an
error whose message carries the captured stderr text, and afterwards the
job's output directory does not exist. -/
theorem C1_nonzero_exit_cleanup_and_stderr (st : Settings)
    (job_id tmpdir : String) (sd : SchemaData) (wt gt ca : String)
    (initDir : Option (List String)) (loader : LoaderResult)
    (h : loader.returncode ≠ 0) :
    (process_data st job_id tmpdir sd wt gt ca initDir loader).result
      = Except.error ("HugeGraph loader failed: " ++ loader.stderr) ∧
    (process_data st job_id tmpdir sd wt gt ca initDir loader).finalDir = none := by
  simp [process_data, remove_id_property_eq, h]

/-- C1 witness: the spec's scenario — exit code 1, stderr "disk full". -/
theorem C1_nonzero_exit_cleanup_and_stderr_witness :
    (process_data ⟨"/output", "/loader.sh", "g", "host", "8080", "cfg", "", 0⟩
        "job1" "/tmp1" ⟨[], []⟩ "metta" "directed" "t0" none
        ⟨1, "", "disk full", []⟩).result
      = Except.error ("HugeGraph loader failed: " ++ "disk full") ∧
    (process_data ⟨"/output", "/loader.sh", "g", "host", "8080", "cfg", "", 0⟩
        "job1" "/tmp1" ⟨[], []⟩ "metta" "directed" "t0" none
        ⟨1, "", "disk full", []⟩).finalDir = none :=
  C1_nonzero_exit_cleanup_and_stderr _ _ _ _ _ _ _ _ _ (by decide)

/-- C2: the code violates the claim.  `_save_job_metadata` writes
`schema.json` and `job_metadata.json` into the output directory before
`_get_output_files` runs, so after a zero exit the listing is never empty:
a loader that exits zero having produced no files yields a success response
(whose output files are exactly the two metadata documents) and a surviving
output directory, instead of the distinct empty-output error and cleanup the
claim requires. -/
theorem C2_empty_loader_output_reported_success :
    (process_data ⟨"/output", "/loader.sh", "g", "host", "8080", "cfg", "", 0⟩
        "job1" "/tmp1" ⟨[], []⟩ "metta" "directed" "t0" none
        ⟨0, "", "", []⟩).result
      = Except.ok
          { job_id := "job1", status := "success",
            message := "Graph generated successfully using metta writer",
            output_files := ["schema.json", "job_metadata.json"],
            output_dir := "/output/job1",
            schema_path := "/output/job1/schema.json",
            writer_type := "metta" } ∧
    (process_data ⟨"/output", "/loader.sh", "g", "host", "8080", "cfg", "", 0⟩
        "job1" "/tmp1" ⟨[], []⟩ "metta" "directed" "t0" none
        ⟨0, "", "", []⟩).finalDir = some ["schema.json", "job_metadata.json"] :=
  ⟨rfl, rfl⟩

/-- C3: on every successful run the persisted `job_metadata.json` has a
non-null `neo4j_config` exactly when the writer type is the Neo4j writer,
and a null one for every other writer type. -/
theorem C3_metadata_connection_config_iff_neo4j (st : Settings)
    (job_id tmpdir : String) (sd : SchemaData) (wt gt ca : String)
    (initDir : Option (List String)) (loader : LoaderResult)
    (r : HugeGraphLoadResponse)
    (h : (process_data st job_id tmpdir sd wt gt ca initDir loader).result
      = Except.ok r) :
    ∃ md, (process_data st job_id tmpdir sd wt gt ca initDir loader).savedMetadata
        = some md ∧
      (md.neo4j_config ≠ none ↔ wt = WriterType.NEO4J) ∧
      (wt ≠ WriterType.NEO4J → md.neo4j_config = none) := by
  simp only [process_data, remove_id_property_eq] at h ⊢
  by_cases hrc : loader.returncode ≠ 0
  · simp [hrc] at h
  · simp only [hrc, if_false, reduceIte] at h ⊢
    by_cases hwt : wt = WriterType.NEO4J <;> split at h <;> simp_all

/-- C3 witness: a successful Neo4j-writer run embeds the connection config. -/
theorem C3_metadata_connection_config_iff_neo4j_witness :
    ∃ md,
      (process_data ⟨"/output", "/loader.sh", "g", "host", "8080", "cfg", "", 0⟩
          "job1" "/tmp1" ⟨[], []⟩ "neo4j" "directed" "t0" none
          ⟨0, "", "", ["a.metta"]⟩).savedMetadata = some md ∧
      (md.neo4j_config ≠ none ↔ "neo4j" = WriterType.NEO4J) ∧
      ("neo4j" ≠ WriterType.NEO4J → md.neo4j_config = none) :=
  C3_metadata_connection_config_iff_neo4j _ _ _ _ _ _ _ _ _ _ rfl

/-- C8: every run invokes the external loader exactly once, with the fixed
argument contract — graph name, structural-config path, host, port, the
clear-all-data flag fixed to `"true"`, output directory, writer type, graph
type, job id — plus the `-s` schema-path flag exactly when a schema file path
was produced (the produced path is never empty, so it is always passed; an
empty path would omit the flag). -/
theorem C8_loader_invoked_once_fixed_args (st : Settings)
    (job_id tmpdir : String) (sd : SchemaData) (wt gt ca : String)
    (initDir : Option (List String)) (loader : LoaderResult) :
    (process_data st job_id tmpdir sd wt gt ca initDir loader).loaderCalls
      = [["sh", st.hugegraph_loader_path,
          "-g", st.hugegraph_graph,
          "-f", config_file_path tmpdir job_id,
          "-h", st.hugegraph_host,
          "-p", st.hugegraph_port,
          "--clear-all-data", "true",
          "-o", get_job_output_dir st job_id,
          "-w", wt,
          "-gt", gt,
          "--job-id", job_id,
          "-s", schema_file_path tmpdir job_id]] ∧
    (∀ cp od j w g, run_hugegraph_loader_cmd st cp "" od j w g
      = ["sh", st.hugegraph_loader_path,
         "-g", st.hugegraph_graph,
         "-f", cp,
         "-h", st.hugegraph_host,
         "-p", st.hugegraph_port,
         "--clear-all-data", "true",
         "-o", od,
         "-w", w,
         "-gt", g,
         "--job-id", j]) := by
  constructor
  · have hs := schema_file_path_ne_empty tmpdir job_id
    simp only [process_data, remove_id_property_eq, run_hugegraph_loader_cmd,
      if_pos hs]
    by_cases hrc : loader.returncode ≠ 0
    · simp [hrc]
    · simp [hrc]
      split <;> rfl
  · intro cp od j w g
    simp [run_hugegraph_loader_cmd]

/-- C7: with no notification endpoint configured the notifier returns `None`
without raising and without sending any request. -/
theorem C7_no_endpoint_silent_noop (timeout : Nat) (job_id writer_type : String)
    (oracle : HttpOutcome) :
    notify_annotation_service "" timeout job_id writer_type oracle
      = { result := Except.ok none, requests := [] } := by
  simp [notify_annotation_service]

/-- C6: with a configured endpoint the notifier sends exactly one POST whose
body is `{folder_id: job_id, type: writer_type}` with `"neo4j"` translated to
`"cypher"` and every other writer type unchanged, and it raises exactly when
the attempt does not come back as an HTTP 200 response (non-200 status,
timeout, or any other request failure); there is no retry. -/
theorem C6_notify_single_post_error_iff_not_200 (service_url : String)
    (h : service_url ≠ "") (timeout : Nat) (job_id writer_type : String)
    (oracle : HttpOutcome) :
    (notify_annotation_service service_url timeout job_id writer_type
        oracle).requests
      = [{ url := service_url, folder_id := job_id,
           type_field := if writer_type = "neo4j" then "cypher" else writer_type,
           timeout := timeout }] ∧
    ((notify_annotation_service service_url timeout job_id writer_type
        oracle).result = Except.ok none
      ↔ ∃ text, oracle = HttpOutcome.response 200 text) := by
  unfold notify_annotation_service
  rw [if_neg h]
  cases oracle with
  | response status text =>
    by_cases hs : status = 200
    · subst hs
      simp
    · simp [hs]
  | timeout m => simp
  | requestError m => simp

/-- C6 witness: a 200 response on a configured endpoint, writer type
`"neo4j"` sent as `"cypher"`. -/
theorem C6_notify_single_post_error_iff_not_200_witness :
    (notify_annotation_service "http://svc" 5 "job1" "neo4j"
        (HttpOutcome.response 200 "ok")).requests
      = [{ url := "http://svc", folder_id := "job1",
           type_field := if "neo4j" = "neo4j" then "cypher" else "neo4j",
           timeout := 5 }] ∧
    ((notify_annotation_service "http://svc" 5 "job1" "neo4j"
        (HttpOutcome.response 200 "ok")).result = Except.ok none
      ↔ ∃ text, HttpOutcome.response 200 "ok" = HttpOutcome.response 200 text) :=
  C6_notify_single_post_error_iff_not_200 "http://svc" (by decide) 5 "job1"
    "neo4j" (HttpOutcome.response 200 "ok")

end AtomspaceBuilder
